import Mathlib

/-!
Verification of the vote/score/notification core of the whitepage backend.

The definitions below are a shallow embedding of the route handlers and
model hooks of the repository:

* `Post.preSave` / `Comment.preSave` — the mongoose `pre('save')` hooks of
  `models/Post.js` and `models/Comment.js` that recompute the cached score
  from the two vote-member arrays.
* `postsVoteCore`, `postsVoteKarma`, `postsVoteNotify`, `postsVoteAfterFind`,
  `postsVoteRoute`, `postsVoteStore` — the post-vote handler
  `router.post('/votes/:postId/:type')` of `routes/posts.js`.
* `votesRoutePost` — the post-vote handler `router.post('/:postId/:type')` of
  `routes/votes.js` (no type validation, no self-vote check).
* `votesRouteComment` — the comment-vote handler
  `router.post('/comments/:commentId/:type')` of `routes/votes.js`.
* `commentVoteRoute` — the comment-vote handler
  `router.post('/comments/:commentId/vote')` of `routes/posts.js`
  (vote type taken from the request body; remove-then-add semantics).
* `commentVoteLegacy` — the same handler in the `part_013` route variant,
  which saves even when the type token is invalid.
* `createNotifDedup` — `NotificationService.createNotification` of
  `utils/notificationUtils.js` (24h read-then-write de-duplication).
* `createNotifUnique` — `Notification.create` against the notification
  model of `part_004`, whose compound index on
  `(user, type, sender, post, comment)` is unique, so a second insert with
  the same tuple fails with a duplicate-key error.
* `postsVoteHandler` — the full `routes/posts.js` vote handler including the
  karma `$inc` side effect and the awaited `Notification.create`, whose
  failure is caught by the route-level catch and reported as a 500.

User ids are `Nat`; Mongo array operations (`filter`, `push`, `some`) become
`List.filter`, `++ [u]`, `List.contains`.
-/

namespace Whitepage

/-- User identifiers (Mongo ObjectIds of `User` documents). -/
abbrev UserId := Nat

/-- The literal route parameter value for an upvote request. -/
def upvoteTok : String := "upvote"

/-- The literal route parameter value for a downvote request. -/
def downvoteTok : String := "downvote"

/-- A `Post` document: the fields the vote flow reads and writes
(`models/Post.js`). -/
structure Post where
  id : Nat
  author : UserId
  upvotes : List UserId
  downvotes : List UserId
  votes : Int
deriving DecidableEq

/-- A `Comment` document: the fields the vote flow reads and writes
(`models/Comment.js`). -/
structure Comment where
  id : Nat
  author : UserId
  postId : Nat
  upvotes : List UserId
  downvotes : List UserId
  voteCount : Int
deriving DecidableEq

/-- The `postSchema.pre('save')` hook of `models/Post.js`: recompute
`votes` as `upvotes.length - downvotes.length` on every save. -/
def Post.preSave (p : Post) : Post :=
  { p with votes := (p.upvotes.length : Int) - (p.downvotes.length : Int) }

/-- The `commentSchema.pre('save')` hook of `models/Comment.js`: recompute
`voteCount` as `upvotes.length - downvotes.length` on every save. -/
def Comment.preSave (c : Comment) : Comment :=
  { c with voteCount := (c.upvotes.length : Int) - (c.downvotes.length : Int) }

/-- Errors surfaced by the vote routes. -/
inductive VoteErr where
  | invalidVoteType
  | postNotFound
  | commentNotFound
  | selfVote
deriving DecidableEq

/-- The in-memory toggle logic of `routes/posts.js` lines 117-149: check the
actor's current membership, then toggle off / switch / add, then recompute
`post.votes` (the explicit recomputation at lines 146-149; the `pre('save')`
hook repeats the same computation at save time). -/
def postsVoteCore (p : Post) (u : UserId) (ty : String) : Post :=
  let hasUp := p.upvotes.contains u
  let hasDown := p.downvotes.contains u
  let p1 :=
    if ty = upvoteTok then
      if hasUp then
        { p with upvotes := p.upvotes.filter (fun i => i != u) }
      else
        let p0 := if hasDown then
            { p with downvotes := p.downvotes.filter (fun i => i != u) }
          else p
        { p0 with upvotes := p0.upvotes ++ [u] }
    else if ty = downvoteTok then
      if hasDown then
        { p with downvotes := p.downvotes.filter (fun i => i != u) }
      else
        let p0 := if hasUp then
            { p with upvotes := p.upvotes.filter (fun i => i != u) }
          else p
        { p0 with downvotes := p0.downvotes ++ [u] }
    else p
  { p1 with votes := (p1.upvotes.length : Int) - (p1.downvotes.length : Int) }

/-- The karma side effect of `routes/posts.js` lines 162-167: `$inc` the
author's karma by `+1` on a fresh upvote, by `-1` on a fresh downvote, and
by nothing otherwise (`hasUp` / `hasDown` are the membership flags read
before the mutation). -/
def postsVoteKarma (hasUp hasDown : Bool) (ty : String) : Int :=
  if ty = upvoteTok ∧ ¬hasUp then 1
  else if ty = downvoteTok ∧ ¬hasDown then -1
  else 0

/-- The notification condition of `routes/posts.js` line 170: a notification
is created exactly when a fresh vote was added. -/
def postsVoteNotify (hasUp hasDown : Bool) (ty : String) : Bool :=
  (ty == upvoteTok && !hasUp) || (ty == downvoteTok && !hasDown)

/-- The result of a successful `routes/posts.js` vote: the saved post, the
karma delta applied to the author, and whether a notification insert was
attempted. -/
structure VoteResult where
  post : Post
  karmaDelta : Int
  notified : Bool
deriving DecidableEq

/-- The part of the `routes/posts.js` vote handler that runs after
`Post.findById` succeeded: the self-vote rejection (lines 105-111) followed
by the toggle transition, the save, the karma delta and the notification
condition. -/
def postsVoteAfterFind (p : Post) (u : UserId) (ty : String) :
    Except VoteErr VoteResult :=
  if p.author = u then .error .selfVote
  else
    let hasUp := p.upvotes.contains u
    let hasDown := p.downvotes.contains u
    .ok ⟨(postsVoteCore p u ty).preSave,
         postsVoteKarma hasUp hasDown ty,
         postsVoteNotify hasUp hasDown ty⟩

/-- The `routes/posts.js` vote handler on an already-loaded post: the type
validation of lines 89-94 happens first, then the rest of the handler. -/
def postsVoteRoute (p : Post) (u : UserId) (ty : String) :
    Except VoteErr VoteResult :=
  if ty = upvoteTok ∨ ty = downvoteTok then postsVoteAfterFind p u ty
  else .error .invalidVoteType

/-- The `routes/posts.js` vote handler against a post store: the type token
is validated before `Post.findById` touches the store (lines 89-97). -/
def postsVoteStore (store : Nat → Option Post) (pid : Nat) (u : UserId)
    (ty : String) : Except VoteErr VoteResult :=
  if ty = upvoteTok ∨ ty = downvoteTok then
    match store pid with
    | none => .error .postNotFound
    | some p => postsVoteAfterFind p u ty
  else .error .invalidVoteType

/-- The `routes/votes.js` post-vote handler (lines 8-69): no type validation
and no self-vote check; a request repeating the held direction clears both
arrays for the actor, an opposite request removes the old membership, and
then the actor is pushed to `upvotes` when the token equals `upvote` and to
`downvotes` for every other token; `votes` is recomputed and the post is
saved. -/
def votesRoutePost (p : Post) (u : UserId) (ty : String) : Post :=
  let hasUp := p.upvotes.contains u
  let hasDown := p.downvotes.contains u
  let p1 :=
    if (ty = upvoteTok ∧ hasUp) ∨ (ty = downvoteTok ∧ hasDown) then
      { p with upvotes := p.upvotes.filter (fun i => i != u),
               downvotes := p.downvotes.filter (fun i => i != u) }
    else
      let p0 :=
        if ty = upvoteTok ∧ hasDown then
          { p with downvotes := p.downvotes.filter (fun i => i != u) }
        else if ty = downvoteTok ∧ hasUp then
          { p with upvotes := p.upvotes.filter (fun i => i != u) }
        else p
      if ty = upvoteTok then { p0 with upvotes := p0.upvotes ++ [u] }
      else { p0 with downvotes := p0.downvotes ++ [u] }
  let p2 := { p1 with votes := (p1.upvotes.length : Int) - (p1.downvotes.length : Int) }
  p2.preSave

/-- The `routes/votes.js` comment-vote handler (lines 75-132): the same
toggle logic as `votesRoutePost`; `voteCount` is recomputed by the save
hook. -/
def votesRouteComment (c : Comment) (u : UserId) (ty : String) : Comment :=
  let hasUp := c.upvotes.contains u
  let hasDown := c.downvotes.contains u
  let c1 :=
    if (ty = upvoteTok ∧ hasUp) ∨ (ty = downvoteTok ∧ hasDown) then
      { c with upvotes := c.upvotes.filter (fun i => i != u),
               downvotes := c.downvotes.filter (fun i => i != u) }
    else
      let c0 :=
        if ty = upvoteTok ∧ hasDown then
          { c with downvotes := c.downvotes.filter (fun i => i != u) }
        else if ty = downvoteTok ∧ hasUp then
          { c with upvotes := c.upvotes.filter (fun i => i != u) }
        else c
      if ty = upvoteTok then { c0 with upvotes := c0.upvotes ++ [u] }
      else { c0 with downvotes := c0.downvotes ++ [u] }
  c1.preSave

/-- The `routes/posts.js` comment-vote handler
(`router.post('/comments/:commentId/vote')`, type from the request body):
the actor is first removed from both arrays, then pushed to the requested
one; an unknown type token is answered with a 400 before `comment.save()`,
so nothing is persisted in that case.  The `Bool` records whether an upvote
notification insert is attempted (`comment.author !== req.user._id`). -/
def commentVoteRoute (c : Comment) (u : UserId) (ty : String) :
    Except VoteErr (Comment × Bool) :=
  let up1 := c.upvotes.filter (fun i => i != u)
  let down1 := c.downvotes.filter (fun i => i != u)
  if ty = upvoteTok then
    .ok (({ c with upvotes := up1 ++ [u], downvotes := down1 }).preSave,
         decide (c.author ≠ u))
  else if ty = downvoteTok then
    .ok (({ c with upvotes := up1, downvotes := down1 ++ [u] }).preSave, false)
  else .error .invalidVoteType

/-- The `part_013` comment-vote handler variant: same remove-then-add logic,
but with no else-branch rejection, so an unknown type token still removes
the actor's existing vote and saves the comment. -/
def commentVoteLegacy (c : Comment) (u : UserId) (ty : String) : Comment :=
  let up1 := c.upvotes.filter (fun i => i != u)
  let down1 := c.downvotes.filter (fun i => i != u)
  let c1 :=
    if ty = upvoteTok then { c with upvotes := up1 ++ [u], downvotes := down1 }
    else if ty = downvoteTok then { c with upvotes := up1, downvotes := down1 ++ [u] }
    else { c with upvotes := up1, downvotes := down1 }
  c1.preSave

/-- The identifying tuple of a notification: `(user, type, sender, post,
comment)` — the fields matched by the de-duplication query of
`utils/notificationUtils.js` and by the unique compound index of the
`part_004` notification model. -/
structure NotifKey where
  user : UserId
  ty : String
  sender : UserId
  post : Option Nat
  comment : Option Nat
deriving DecidableEq

/-- A stored notification record (key fields plus the `createdAt`
timestamp added by mongoose `timestamps: true`), in milliseconds. -/
structure Notif where
  key : NotifKey
  createdAt : Int
deriving DecidableEq

/-- The 24-hour window used by the de-duplication check, in milliseconds
(`24 * 60 * 60 * 1000`). -/
def dayMs : Int := 24 * 60 * 60 * 1000

/-- `NotificationService.createNotification` of `utils/notificationUtils.js`:
look for an existing notification with the same `(user, type, sender, post,
comment)` tuple created within the last 24 hours; skip the insert when one
exists, insert a record stamped `now` otherwise. -/
def createNotifDedup (store : List Notif) (k : NotifKey) (now : Int) :
    List Notif :=
  if store.any (fun n => decide (n.key = k ∧ n.createdAt > now - dayMs)) then
    store
  else store ++ [⟨k, now⟩]

/-- `Notification.create` against the `part_004` notification model: the
unique compound index on `(user, type, sender, post, comment)` makes a
second insert with the same tuple fail with a duplicate-key error. -/
def createNotifUnique (store : List Notif) (k : NotifKey) (now : Int) :
    Except Unit (List Notif) :=
  if store.any (fun n => decide (n.key = k)) then .error ()
  else .ok (store ++ [⟨k, now⟩])

/-- The state the full `routes/posts.js` vote handler touches: the post
document, every user's karma counter, and the notification collection. -/
structure AppState where
  post : Post
  karma : UserId → Int
  notifs : List Notif

/-- The full `routes/posts.js` vote handler
(`router.post('/votes/:postId/:type')`, lines 77-200): validate the type
token, reject self-votes, apply the toggle transition and save the post,
`$inc` the author's karma, then `await Notification.create` for fresh
votes.  All of this sits in one `try` block, so a rejected notification
insert (for example the duplicate-key error of the unique index) jumps to
the catch and the response is the 500 `Failed to process vote` — even
though the post save and the karma update have already been applied.  The
returned `Bool` is `true` exactly when the caller receives the success
response. -/
def postsVoteHandler (s : AppState) (u : UserId) (ty : String) (now : Int) :
    AppState × Bool :=
  if ty = upvoteTok ∨ ty = downvoteTok then
    if s.post.author = u then (s, false)
    else
      let hasUp := s.post.upvotes.contains u
      let hasDown := s.post.downvotes.contains u
      let p2 := (postsVoteCore s.post u ty).preSave
      let delta := postsVoteKarma hasUp hasDown ty
      let karma2 := fun x => if x = s.post.author then s.karma x + delta
        else s.karma x
      if postsVoteNotify hasUp hasDown ty then
        match createNotifUnique s.notifs
            ⟨s.post.author, ty, u, some s.post.id, none⟩ now with
        | .ok ns => (⟨p2, karma2, ns⟩, true)
        | .error _ => (⟨p2, karma2, s.notifs⟩, false)
      else (⟨p2, karma2, s.notifs⟩, true)
  else (s, false)

/-- `createVoteNotification` of `controllers/voteController.js`: the whole
notification write sits in a `try`/`catch` whose catch only logs — the
caller always gets a non-failing result, whether or not the underlying
insert succeeded (`sinkFails` models a rejected insert).  The `Bool` is
`true` in every branch: the vote is never reported failed from here. -/
def createVoteNotificationSafe (store : List Notif) (k : NotifKey)
    (now : Int) (sinkFails : Bool) : List Notif × Bool :=
  if sinkFails then (store, true)
  else
    match createNotifUnique store k now with
    | .ok ns => (ns, true)
    | .error _ => (store, true)

/-- The state a comment-vote handler touches: the comment document, every
user's karma counter, and the notification collection. -/
structure CommentAppState where
  comment : Comment
  karma : UserId → Int
  notifs : List Notif

/-- The full `routes/posts.js` comment-vote handler
(`router.post('/comments/:commentId/vote')`): remove-then-add on the vote
arrays; on an upvote by a non-author the notification insert is awaited
before `comment.save()`, so a rejected insert aborts the save; an unknown
type token is answered 400 before the save.  The `Bool` is the success of
the response.  No user karma is read or written anywhere in the handler. -/
def commentVoteFullBody (s : CommentAppState) (u : UserId) (ty : String)
    (now : Int) : CommentAppState × Bool :=
  match commentVoteRoute s.comment u ty with
  | .error _ => (⟨s.comment, s.karma, s.notifs⟩, false)
  | .ok (c2, notify) =>
    if notify then
      match createNotifUnique s.notifs
          ⟨s.comment.author, upvoteTok, u, some s.comment.postId,
           some s.comment.id⟩ now with
      | .ok ns => (⟨c2, s.karma, ns⟩, true)
      | .error _ => (⟨s.comment, s.karma, s.notifs⟩, false)
    else (⟨c2, s.karma, s.notifs⟩, true)

/-- The full `routes/votes.js` comment-vote handler
(`router.post('/comments/:commentId/:type')`): toggle logic and save; no
notification and no karma code exists in this route. -/
def votesCommentFull (s : CommentAppState) (u : UserId) (ty : String) :
    CommentAppState × Bool :=
  (⟨votesRouteComment s.comment u ty, s.karma, s.notifs⟩, true)

/-- The `part_013` comment-vote handler on the full state: remove-then-add,
notification on upvote by a non-author (awaited before the save), save in
every branch; no karma code exists in this route. -/
def commentVoteFullLegacy (s : CommentAppState) (u : UserId) (ty : String)
    (now : Int) : CommentAppState × Bool :=
  let c2 := commentVoteLegacy s.comment u ty
  if ty = upvoteTok ∧ s.comment.author ≠ u then
    match createNotifUnique s.notifs
        ⟨s.comment.author, upvoteTok, u, some s.comment.postId,
         some s.comment.id⟩ now with
    | .ok ns => (⟨c2, s.karma, ns⟩, true)
    | .error _ => (⟨s.comment, s.karma, s.notifs⟩, false)
  else (⟨c2, s.karma, s.notifs⟩, true)

/-- One vote request against a single post, through either post-vote
route. -/
inductive PostOp where
  | main (u : UserId) (ty : String)
  | alt (u : UserId) (ty : String)

/-- A request token is valid when it names one of the two directions. -/
def PostOp.valid : PostOp → Prop
  | .main _ ty => ty = upvoteTok ∨ ty = downvoteTok
  | .alt _ ty => ty = upvoteTok ∨ ty = downvoteTok

/-- Effect of one vote request on the post document: the `routes/posts.js`
handler saves nothing when it errors; the `routes/votes.js` handler always
saves. -/
def stepPost (p : Post) : PostOp → Post
  | .main u ty =>
    match postsVoteRoute p u ty with
    | .ok r => r.post
    | .error _ => p
  | .alt u ty => votesRoutePost p u ty

/-- One vote request against a single comment, through any of the three
comment-vote handlers. -/
inductive CommentOp where
  | body (u : UserId) (ty : String)
  | legacy (u : UserId) (ty : String)
  | alt (u : UserId) (ty : String)

/-- A request token is valid when it names one of the two directions. -/
def CommentOp.valid : CommentOp → Prop
  | .body _ ty => ty = upvoteTok ∨ ty = downvoteTok
  | .legacy _ ty => ty = upvoteTok ∨ ty = downvoteTok
  | .alt _ ty => ty = upvoteTok ∨ ty = downvoteTok

/-- Effect of one vote request on the comment document. -/
def stepComment (c : Comment) : CommentOp → Comment
  | .body u ty =>
    match commentVoteRoute c u ty with
    | .ok r => r.1
    | .error _ => c
  | .legacy u ty => commentVoteLegacy c u ty
  | .alt u ty => votesRouteComment c u ty

/-- Count of same-tuple notifications inside the rolling window
`(t, t + 24h]`. -/
def windowCount (store : List Notif) (k : NotifKey) (t : Int) : Nat :=
  (store.filter
    (fun n => decide (n.key = k ∧ t < n.createdAt ∧ n.createdAt ≤ t + dayMs))).length

/-- Run a list of `createNotification` requests `(key, now)` through
`NotificationService.createNotification`, starting from an empty
collection. -/
def runDedup (reqs : List (NotifKey × Int)) : List Notif :=
  reqs.foldl (fun st r => createNotifDedup st r.1 r.2) []

/-- A fresh post with id 10 and author `U1 = 1`: no voters, score 0. -/
def freshPost : Post := ⟨10, 1, [], [], 0⟩

/-- A comment (id 7 on post 10, author 1) that user 2 currently upvotes. -/
def heldUpComment : Comment := ⟨7, 1, 10, [2], [], 1⟩

/-- An invalid direction token, as a client could send in the URL. -/
def badTok : String := "sideways"

/-- Initial application state: the fresh post, all karma 0, no
notifications. -/
def freshState : AppState := ⟨freshPost, fun _ => 0, []⟩

/-- State after actor `U2 = 2` upvotes the fresh post through
`routes/posts.js`. -/
def upOnce : AppState := (postsVoteHandler freshState 2 upvoteTok 100).1

/-- State after `U2` then downvotes (the switch step of the spec's concrete
scenario). -/
def switchSeq2 : AppState := (postsVoteHandler upOnce 2 downvoteTok 200).1

/-- State after `U2` downvotes once more (the toggle-off step of the spec's
concrete scenario). -/
def switchSeq3 : AppState := (postsVoteHandler switchSeq2 2 downvoteTok 300).1

/-- State after `U2` upvotes a second time from `upOnce` (toggle-off of the
upvote). -/
def upSeq2 : AppState := (postsVoteHandler upOnce 2 upvoteTok 200).1

/-- Full run (state and response success) of `U2` upvoting a third time
from `upSeq2` (fresh upvote again, within 24h of the first). -/
def upSeq3run : AppState × Bool := postsVoteHandler upSeq2 2 upvoteTok 300

theorem upTok_ne_downTok : upvoteTok ≠ downvoteTok := by decide

theorem contains_filter_ne (l : List UserId) (u : UserId) :
    (l.filter (fun i => i != u)).contains u = false := by
  simp [List.contains_eq_any_beq]

theorem not_mem_filter_ne (l : List UserId) (u : UserId) :
    u ∉ l.filter (fun i => i != u) := by
  simp [List.mem_filter]

theorem preSave_upvotes (p : Post) : (Post.preSave p).upvotes = p.upvotes := rfl

theorem preSave_downvotes (p : Post) : (Post.preSave p).downvotes = p.downvotes := rfl

theorem cPreSave_upvotes (c : Comment) : (Comment.preSave c).upvotes = c.upvotes := rfl

theorem cPreSave_downvotes (c : Comment) : (Comment.preSave c).downvotes = c.downvotes := rfl

theorem votesRoutePost_upvote_mem (p : Post) (u : UserId) :
    (votesRoutePost p u upvoteTok).upvotes.contains u = !(p.upvotes.contains u)
    ∧ (votesRoutePost p u upvoteTok).downvotes.contains u = false := by
  by_cases h1 : u ∈ p.upvotes <;> by_cases h2 : u ∈ p.downvotes <;>
    simp [votesRoutePost, Post.preSave, h1, h2, upTok_ne_downTok,
      List.mem_filter, List.mem_append]

theorem votesRoutePost_downvote_mem (p : Post) (u : UserId) :
    (votesRoutePost p u downvoteTok).downvotes.contains u = !(p.downvotes.contains u)
    ∧ (votesRoutePost p u downvoteTok).upvotes.contains u = false := by
  by_cases h1 : u ∈ p.upvotes <;> by_cases h2 : u ∈ p.downvotes <;>
    simp [votesRoutePost, Post.preSave, h1, h2, upTok_ne_downTok,
      Ne.symm upTok_ne_downTok, List.mem_filter, List.mem_append]

theorem votesRouteComment_upvote_mem (c : Comment) (u : UserId) :
    (votesRouteComment c u upvoteTok).upvotes.contains u = !(c.upvotes.contains u)
    ∧ (votesRouteComment c u upvoteTok).downvotes.contains u = false := by
  by_cases h1 : u ∈ c.upvotes <;> by_cases h2 : u ∈ c.downvotes <;>
    simp [votesRouteComment, Comment.preSave, h1, h2, upTok_ne_downTok,
      List.mem_filter, List.mem_append]

theorem votesRouteComment_downvote_mem (c : Comment) (u : UserId) :
    (votesRouteComment c u downvoteTok).downvotes.contains u = !(c.downvotes.contains u)
    ∧ (votesRouteComment c u downvoteTok).upvotes.contains u = false := by
  by_cases h1 : u ∈ c.upvotes <;> by_cases h2 : u ∈ c.downvotes <;>
    simp [votesRouteComment, Comment.preSave, h1, h2, upTok_ne_downTok,
      Ne.symm upTok_ne_downTok, List.mem_filter, List.mem_append]

theorem postsVoteCore_upvote_mem (p : Post) (u : UserId)
    (hdisj : ¬(u ∈ p.upvotes ∧ u ∈ p.downvotes)) :
    (postsVoteCore p u upvoteTok).upvotes.contains u = !(p.upvotes.contains u)
    ∧ (postsVoteCore p u upvoteTok).downvotes.contains u = false := by
  by_cases h1 : u ∈ p.upvotes <;> by_cases h2 : u ∈ p.downvotes <;>
    simp [postsVoteCore, h1, h2, upTok_ne_downTok,
      List.mem_filter, List.mem_append] <;> exact absurd ⟨h1, h2⟩ hdisj

theorem postsVoteCore_downvote_mem (p : Post) (u : UserId)
    (hdisj : ¬(u ∈ p.upvotes ∧ u ∈ p.downvotes)) :
    (postsVoteCore p u downvoteTok).downvotes.contains u = !(p.downvotes.contains u)
    ∧ (postsVoteCore p u downvoteTok).upvotes.contains u = false := by
  by_cases h1 : u ∈ p.upvotes <;> by_cases h2 : u ∈ p.downvotes <;>
    simp [postsVoteCore, h1, h2, upTok_ne_downTok, Ne.symm upTok_ne_downTok,
      List.mem_filter, List.mem_append] <;> exact absurd ⟨h1, h2⟩ hdisj

theorem commentVoteRoute_upvote_mem (c : Comment) (u : UserId) :
    ((commentVoteRoute c u upvoteTok).map (fun r => r.1.upvotes.contains u)) = .ok true
    ∧ ((commentVoteRoute c u upvoteTok).map (fun r => r.1.downvotes.contains u)) = .ok false := by
  simp [commentVoteRoute, Comment.preSave, Except.map, List.mem_filter, List.mem_append]

theorem commentVoteRoute_downvote_mem (c : Comment) (u : UserId) :
    ((commentVoteRoute c u downvoteTok).map (fun r => r.1.downvotes.contains u)) = .ok true
    ∧ ((commentVoteRoute c u downvoteTok).map (fun r => r.1.upvotes.contains u)) = .ok false := by
  simp [commentVoteRoute, Comment.preSave, Except.map, Ne.symm upTok_ne_downTok,
    List.mem_filter, List.mem_append]

/-- Claim C1: the spec claims the karma delta of every vote transition is
`newContributionSign - oldContributionSign`, so the sequence upvote,
downvote, downvote by `U2` on `U1`'s fresh post should move `U1`'s karma by
+1, -2, +1 (trajectory 1, -1, 0).  The code of
`routes/posts.js`/`part_012` instead applies +1 only on a fresh upvote and
-1 only on a fresh downvote and nothing otherwise, giving deltas +1, -1, 0
(trajectory 1, 0, 0): the switch is undercounted and the toggle-off is not
compensated. -/
theorem c1_karma_three_call_run :
    upOnce.karma 1 = 1 ∧ switchSeq2.karma 1 = 0 ∧ switchSeq3.karma 1 = 0
    ∧ upOnce.post = ⟨10, 1, [2], [], 1⟩
    ∧ switchSeq2.post = ⟨10, 1, [], [2], -1⟩
    ∧ switchSeq3.post = ⟨10, 1, [], [], 0⟩ := by decide

/-- Claim C2, counterexample: on the comment-vote route of
`routes/posts.js`/`part_013`, requesting the direction the actor already
holds re-adds the vote instead of removing it: user 2 upvotes a comment
they already upvote and the result is the unchanged upvoted state (with a
notification attempt), not a retraction. -/
theorem c2_comment_same_direction_noop :
    commentVoteRoute heldUpComment 2 upvoteTok = .ok (heldUpComment, true)
    ∧ (commentVoteLegacy heldUpComment 2 upvoteTok).upvotes.contains 2 = true := by
  exact ⟨rfl, by decide⟩

/-- Claim C3, counterexample: the `routes/votes.js` post-vote handler
accepts any direction token and pushes the actor onto `downvotes` for every
token other than `upvote`, without removing an existing upvote.  After a
valid upvote followed by a request with token `sideways`, user 2 is in both
member sets. -/
theorem c3_disjoint_break_invalid_token :
    (votesRoutePost (votesRoutePost freshPost 2 upvoteTok) 2 badTok).upvotes.contains 2
      = true
    ∧ (votesRoutePost (votesRoutePost freshPost 2 upvoteTok) 2 badTok).downvotes.contains 2
      = true := by decide

/-- Claim C5, counterexample: the `routes/votes.js` post-vote handler has
no self-vote check: the author (user 1) of the fresh post upvotes it and
the vote is applied (author in `upvoters`, score 1), with a success
response rather than an error. -/
theorem c5_self_vote_accepted_votes_route :
    votesRoutePost freshPost 1 upvoteTok = ⟨10, 1, [1], [], 1⟩ := by decide

/-- Claim C6, counterexample: the `routes/votes.js` post-vote handler does
not reject an invalid direction token; the token `sideways` on the fresh
post mutates state, adding the actor to `downvoters` and saving score
-1. -/
theorem c6_invalid_token_mutates_votes_route :
    votesRoutePost freshPost 2 badTok = ⟨10, 1, [], [2], -1⟩ := by decide

/-- Claim C8, counterexample: on the `routes/posts.js` vote route, a
notification-insert failure after the vote write has committed makes the
caller see the vote as failed.  Concretely: upvote, toggle off, upvote
again within 24h — the third call saves the re-upvoted post (and applies
karma) but the `Notification.create` hits the unique-index duplicate of the
first call's record, the route's catch answers 500, and the response
reports failure despite the committed state. -/
theorem c8_commit_then_notif_failure_reports_error :
    upSeq3run.2 = false
    ∧ upSeq3run.1.post = ⟨10, 1, [2], [], 1⟩
    ∧ upSeq2.post = ⟨10, 1, [], [], 0⟩ := by decide

theorem disj_mono {up down up' down' : List UserId} (h : up.Disjoint down)
    (hu : up' ⊆ up) (hd : down' ⊆ down) : up'.Disjoint down' :=
  fun _ ha hb => h (hu ha) (hd hb)

theorem disj_push_left {up down : List UserId} {u : UserId}
    (h : up.Disjoint down) (hu : u ∉ down) : (up ++ [u]).Disjoint down := by
  intro a ha hb
  rcases List.mem_append.mp ha with h1 | h1
  · exact h h1 hb
  · rw [List.mem_singleton.mp h1] at hb
    exact hu hb

theorem disj_push_right {up down : List UserId} {u : UserId}
    (h : up.Disjoint down) (hu : u ∉ up) : up.Disjoint (down ++ [u]) := by
  intro a ha hb
  rcases List.mem_append.mp hb with h1 | h1
  · exact h ha h1
  · rw [List.mem_singleton.mp h1] at ha
    exact hu ha

theorem postsVoteCore_disj (p : Post) (u : UserId) (ty : String)
    (h : p.upvotes.Disjoint p.downvotes) :
    (postsVoteCore p u ty).upvotes.Disjoint (postsVoteCore p u ty).downvotes := by
  by_cases hty1 : ty = upvoteTok
  · subst hty1
    by_cases h1 : u ∈ p.upvotes <;> by_cases h2 : u ∈ p.downvotes <;>
        simp [postsVoteCore, h1, h2, upTok_ne_downTok] <;>
      first
      | exact disj_mono h (List.filter_subset' _) (fun _ hb => hb)
      | exact disj_mono h (fun _ hb => hb) (List.filter_subset' _)
      | exact disj_mono h (List.filter_subset' _) (List.filter_subset' _)
      | exact disj_push_left (disj_mono h (fun _ hb => hb) (List.filter_subset' _))
          (not_mem_filter_ne _ _)
      | exact disj_push_right (disj_mono h (List.filter_subset' _) (fun _ hb => hb))
          (not_mem_filter_ne _ _)
      | exact disj_push_left h h2
      | exact disj_push_right h h1
      | exact h
  · by_cases hty2 : ty = downvoteTok
    · subst hty2
      by_cases h1 : u ∈ p.upvotes <;> by_cases h2 : u ∈ p.downvotes <;>
          simp [postsVoteCore, h1, h2, hty1, upTok_ne_downTok] <;>
        first
        | exact disj_mono h (List.filter_subset' _) (fun _ hb => hb)
        | exact disj_mono h (fun _ hb => hb) (List.filter_subset' _)
        | exact disj_mono h (List.filter_subset' _) (List.filter_subset' _)
        | exact disj_push_left (disj_mono h (fun _ hb => hb) (List.filter_subset' _))
            (not_mem_filter_ne _ _)
        | exact disj_push_right (disj_mono h (List.filter_subset' _) (fun _ hb => hb))
            (not_mem_filter_ne _ _)
        | exact disj_push_left h h2
        | exact disj_push_right h h1
        | exact h
    · simpa [postsVoteCore, hty1, hty2] using h

theorem votesRoutePost_disj (p : Post) (u : UserId) (ty : String)
    (hty : ty = upvoteTok ∨ ty = downvoteTok)
    (h : p.upvotes.Disjoint p.downvotes) :
    (votesRoutePost p u ty).upvotes.Disjoint (votesRoutePost p u ty).downvotes := by
  rcases hty with hty | hty <;> subst hty <;>
    (by_cases h1 : u ∈ p.upvotes <;> by_cases h2 : u ∈ p.downvotes <;>
        simp [votesRoutePost, Post.preSave, h1, h2, upTok_ne_downTok,
          Ne.symm upTok_ne_downTok] <;>
      first
      | exact disj_mono h (List.filter_subset' _) (fun _ hb => hb)
      | exact disj_mono h (fun _ hb => hb) (List.filter_subset' _)
      | exact disj_mono h (List.filter_subset' _) (List.filter_subset' _)
      | exact disj_push_left (disj_mono h (fun _ hb => hb) (List.filter_subset' _))
          (not_mem_filter_ne _ _)
      | exact disj_push_right (disj_mono h (List.filter_subset' _) (fun _ hb => hb))
          (not_mem_filter_ne _ _)
      | exact disj_push_left h h2
      | exact disj_push_right h h1
      | exact h)

theorem votesRouteComment_disj (c : Comment) (u : UserId) (ty : String)
    (hty : ty = upvoteTok ∨ ty = downvoteTok)
    (h : c.upvotes.Disjoint c.downvotes) :
    (votesRouteComment c u ty).upvotes.Disjoint (votesRouteComment c u ty).downvotes := by
  rcases hty with hty | hty <;> subst hty <;>
    (by_cases h1 : u ∈ c.upvotes <;> by_cases h2 : u ∈ c.downvotes <;>
        simp [votesRouteComment, Comment.preSave, h1, h2, upTok_ne_downTok,
          Ne.symm upTok_ne_downTok] <;>
      first
      | exact disj_mono h (List.filter_subset' _) (fun _ hb => hb)
      | exact disj_mono h (fun _ hb => hb) (List.filter_subset' _)
      | exact disj_mono h (List.filter_subset' _) (List.filter_subset' _)
      | exact disj_push_left (disj_mono h (fun _ hb => hb) (List.filter_subset' _))
          (not_mem_filter_ne _ _)
      | exact disj_push_right (disj_mono h (List.filter_subset' _) (fun _ hb => hb))
          (not_mem_filter_ne _ _)
      | exact disj_push_left h h2
      | exact disj_push_right h h1
      | exact h)

theorem commentVoteLegacy_disj (c : Comment) (u : UserId) (ty : String)
    (h : c.upvotes.Disjoint c.downvotes) :
    (commentVoteLegacy c u ty).upvotes.Disjoint (commentVoteLegacy c u ty).downvotes := by
  by_cases hty1 : ty = upvoteTok
  · subst hty1
    simp [commentVoteLegacy, Comment.preSave]
    first
    | exact disj_push_left (disj_mono h (List.filter_subset' _) (List.filter_subset' _))
        (not_mem_filter_ne _ _)
    | exact disj_mono h (List.filter_subset' _) (List.filter_subset' _)
  · by_cases hty2 : ty = downvoteTok
    · subst hty2
      simp [commentVoteLegacy, Comment.preSave, hty1]
      first
      | exact disj_push_right (disj_mono h (List.filter_subset' _) (List.filter_subset' _))
          (not_mem_filter_ne _ _)
      | exact disj_mono h (List.filter_subset' _) (List.filter_subset' _)
    · simp [commentVoteLegacy, Comment.preSave, hty1, hty2]
      exact disj_mono h (List.filter_subset' _) (List.filter_subset' _)

theorem stepPost_disj (p : Post) (op : PostOp) (hv : op.valid)
    (h : p.upvotes.Disjoint p.downvotes) :
    (stepPost p op).upvotes.Disjoint (stepPost p op).downvotes := by
  cases op with
  | main u ty =>
    rcases hv with hty | hty <;> subst hty <;>
      by_cases hs : p.author = u <;>
        simp [stepPost, postsVoteRoute, postsVoteAfterFind, hs, Post.preSave] <;>
      first
      | exact h
      | exact postsVoteCore_disj p u _ h
  | alt u ty => exact votesRoutePost_disj p u ty hv h

theorem stepComment_disj (c : Comment) (op : CommentOp) (hv : op.valid)
    (h : c.upvotes.Disjoint c.downvotes) :
    (stepComment c op).upvotes.Disjoint (stepComment c op).downvotes := by
  cases op with
  | body u ty =>
    rcases hv with hty | hty <;> subst hty <;>
        simp [stepComment, commentVoteRoute, Comment.preSave, upTok_ne_downTok,
          Ne.symm upTok_ne_downTok] <;>
      first
      | exact disj_push_left (disj_mono h (List.filter_subset' _) (List.filter_subset' _))
          (not_mem_filter_ne _ _)
      | exact disj_push_right (disj_mono h (List.filter_subset' _) (List.filter_subset' _))
          (not_mem_filter_ne _ _)
      | exact disj_mono h (List.filter_subset' _) (List.filter_subset' _)
  | legacy u ty => exact commentVoteLegacy_disj c u ty h
  | alt u ty => exact votesRouteComment_disj c u ty hv h

theorem foldl_stepPost_disj (ops : List PostOp) (p : Post)
    (hv : ∀ op ∈ ops, op.valid) (h : p.upvotes.Disjoint p.downvotes) :
    (ops.foldl stepPost p).upvotes.Disjoint (ops.foldl stepPost p).downvotes := by
  induction ops generalizing p with
  | nil => exact h
  | cons op rest ih =>
    exact ih (stepPost p op) (fun o ho => hv o (List.mem_cons_of_mem _ ho))
      (stepPost_disj p op (hv op (List.mem_cons_self _ _)) h)

theorem foldl_stepComment_disj (ops : List CommentOp) (c : Comment)
    (hv : ∀ op ∈ ops, op.valid) (h : c.upvotes.Disjoint c.downvotes) :
    (ops.foldl stepComment c).upvotes.Disjoint (ops.foldl stepComment c).downvotes := by
  induction ops generalizing c with
  | nil => exact h
  | cons op rest ih =>
    exact ih (stepComment c op) (fun o ho => hv o (List.mem_cons_of_mem _ ho))
      (stepComment_disj c op (hv op (List.mem_cons_self _ _)) h)

theorem commentVoteLegacy_upvote_mem (c : Comment) (u : UserId) :
    (commentVoteLegacy c u upvoteTok).upvotes.contains u = true
    ∧ (commentVoteLegacy c u upvoteTok).downvotes.contains u = false := by
  simp [commentVoteLegacy, Comment.preSave, List.mem_filter, List.mem_append]

theorem commentVoteLegacy_downvote_mem (c : Comment) (u : UserId) :
    (commentVoteLegacy c u downvoteTok).downvotes.contains u = true
    ∧ (commentVoteLegacy c u downvoteTok).upvotes.contains u = false := by
  simp [commentVoteLegacy, Comment.preSave, Ne.symm upTok_ne_downTok,
    List.mem_filter, List.mem_append]

/-- Claim C2 (amended): on both post-vote routes the actor's resulting
membership is the full toggle-engine semantics — requesting a direction
flips the actor's membership in that set when already held (toggle-off),
adds it otherwise (covering neutral adds and switches), and always removes
the actor from the opposite set; the `routes/votes.js` comment handler
behaves the same.  On the remove-then-add comment handlers of
`routes/posts.js`/`part_013`, opposite-direction and neutral requests
behave as claimed but a same-direction request leaves the actor's vote in
place (membership is `true` unconditionally) instead of retracting it.
The `postsVoteCore` parts assume the actor is not in both sets (the standing
disjointness invariant). -/
theorem c2_toggle_switch_semantics (p : Post) (c : Comment) (u : UserId)
    (hdisj : ¬(u ∈ p.upvotes ∧ u ∈ p.downvotes)) :
    ((postsVoteCore p u upvoteTok).upvotes.contains u = !(p.upvotes.contains u)
      ∧ (postsVoteCore p u upvoteTok).downvotes.contains u = false)
    ∧ ((postsVoteCore p u downvoteTok).downvotes.contains u = !(p.downvotes.contains u)
      ∧ (postsVoteCore p u downvoteTok).upvotes.contains u = false)
    ∧ ((votesRoutePost p u upvoteTok).upvotes.contains u = !(p.upvotes.contains u)
      ∧ (votesRoutePost p u upvoteTok).downvotes.contains u = false)
    ∧ ((votesRoutePost p u downvoteTok).downvotes.contains u = !(p.downvotes.contains u)
      ∧ (votesRoutePost p u downvoteTok).upvotes.contains u = false)
    ∧ ((votesRouteComment c u upvoteTok).upvotes.contains u = !(c.upvotes.contains u)
      ∧ (votesRouteComment c u upvoteTok).downvotes.contains u = false)
    ∧ ((votesRouteComment c u downvoteTok).downvotes.contains u = !(c.downvotes.contains u)
      ∧ (votesRouteComment c u downvoteTok).upvotes.contains u = false)
    ∧ (((commentVoteRoute c u upvoteTok).map (fun r => r.1.upvotes.contains u)) = .ok true
      ∧ ((commentVoteRoute c u upvoteTok).map (fun r => r.1.downvotes.contains u)) = .ok false)
    ∧ (((commentVoteRoute c u downvoteTok).map (fun r => r.1.downvotes.contains u)) = .ok true
      ∧ ((commentVoteRoute c u downvoteTok).map (fun r => r.1.upvotes.contains u)) = .ok false)
    ∧ ((commentVoteLegacy c u upvoteTok).upvotes.contains u = true
      ∧ (commentVoteLegacy c u upvoteTok).downvotes.contains u = false)
    ∧ ((commentVoteLegacy c u downvoteTok).downvotes.contains u = true
      ∧ (commentVoteLegacy c u downvoteTok).upvotes.contains u = false) :=
  ⟨postsVoteCore_upvote_mem p u hdisj, postsVoteCore_downvote_mem p u hdisj,
   votesRoutePost_upvote_mem p u, votesRoutePost_downvote_mem p u,
   votesRouteComment_upvote_mem c u, votesRouteComment_downvote_mem c u,
   commentVoteRoute_upvote_mem c u, commentVoteRoute_downvote_mem c u,
   commentVoteLegacy_upvote_mem c u, commentVoteLegacy_downvote_mem c u⟩

theorem c2_toggle_switch_semantics_witness :
    (postsVoteCore freshPost 2 upvoteTok).upvotes.contains 2
      = !(freshPost.upvotes.contains 2)
    ∧ (votesRoutePost freshPost 2 upvoteTok).upvotes.contains 2
      = !(freshPost.upvotes.contains 2) :=
  ⟨(c2_toggle_switch_semantics freshPost heldUpComment 2 (by decide)).1.1,
   (c2_toggle_switch_semantics freshPost heldUpComment 2 (by decide)).2.2.1.1⟩

/-- Claim C3 (amended): for every content item and every sequence of vote
operations whose direction tokens are valid (`upvote`/`downvote`), the
upvoter and downvoter sets stay disjoint, over all post and comment vote
routes.  (The restriction to valid tokens is forced by the
`routes/votes.js` handlers, which accept any token and can otherwise put
the actor in both sets.) -/
theorem c3_disjoint_votes_invariant (p : Post) (c : Comment)
    (ops : List PostOp) (cops : List CommentOp)
    (hp : p.upvotes.Disjoint p.downvotes) (hc : c.upvotes.Disjoint c.downvotes)
    (hv : ∀ op ∈ ops, op.valid) (hcv : ∀ op ∈ cops, op.valid) :
    (ops.foldl stepPost p).upvotes.Disjoint (ops.foldl stepPost p).downvotes
    ∧ (cops.foldl stepComment c).upvotes.Disjoint (cops.foldl stepComment c).downvotes :=
  ⟨foldl_stepPost_disj ops p hv hp, foldl_stepComment_disj cops c hcv hc⟩

theorem c3_disjoint_votes_invariant_witness :
    ([PostOp.main 2 upvoteTok, PostOp.alt 3 downvoteTok].foldl stepPost
      freshPost).upvotes.Disjoint
    (([PostOp.main 2 upvoteTok, PostOp.alt 3 downvoteTok].foldl stepPost
      freshPost).downvotes) :=
  (c3_disjoint_votes_invariant freshPost heldUpComment
    [PostOp.main 2 upvoteTok, PostOp.alt 3 downvoteTok]
    [CommentOp.body 2 upvoteTok]
    (by simp [freshPost, List.Disjoint])
    (by simp [heldUpComment, List.Disjoint])
    (by intro op hop
        simp at hop
        rcases hop with rfl | rfl
        · exact Or.inl rfl
        · exact Or.inr rfl)
    (by intro op hop
        simp at hop
        subst hop
        exact Or.inl rfl)).1

/-- Claim C5 (amended): only the `/votes/:postId/:type` route of
`routes/posts.js` (and its `part_012` duplicate) rejects author self-votes:
there every request by the author errors (self-vote error, or invalid-type
error first) and the post is left unchanged.  The `routes/votes.js` routes
and the comment-vote routes apply the author's vote like any other
actor's. -/
theorem c5_self_vote_rejected_main_route (p : Post) (u : UserId) (ty : String)
    (h : p.author = u) :
    (∃ e, postsVoteRoute p u ty = .error e) ∧ stepPost p (.main u ty) = p := by
  by_cases hty : ty = upvoteTok ∨ ty = downvoteTok
  · refine ⟨⟨.selfVote, ?_⟩, ?_⟩ <;>
      simp [stepPost, postsVoteRoute, postsVoteAfterFind, hty, h]
  · refine ⟨⟨.invalidVoteType, ?_⟩, ?_⟩ <;>
      simp [stepPost, postsVoteRoute, postsVoteAfterFind, hty]

theorem c5_self_vote_rejected_main_route_witness :
    stepPost freshPost (.main 1 upvoteTok) = freshPost :=
  (c5_self_vote_rejected_main_route freshPost 1 upvoteTok (by decide)).2

/-- Claim C6 (amended): an invalid direction token is rejected with no
mutation only on the `routes/posts.js` handlers: the post-vote route
rejects it before any store access (the outcome is the invalid-type error
for every store, even one without the post), and the comment-vote route
rejects it after the comment read but before the save, leaving the comment
unchanged.  The `routes/votes.js` handlers (and the `part_013` comment
handler) do not reject invalid tokens and can mutate state. -/
theorem c6_invalid_type_rejected_main_route (ty : String)
    (h : ¬(ty = upvoteTok ∨ ty = downvoteTok)) :
    (∀ store : Nat → Option Post, ∀ pid : Nat, ∀ u : UserId,
      postsVoteStore store pid u ty = .error .invalidVoteType)
    ∧ (∀ p : Post, ∀ u : UserId,
        postsVoteRoute p u ty = .error .invalidVoteType
        ∧ stepPost p (.main u ty) = p)
    ∧ (∀ c : Comment, ∀ u : UserId,
        commentVoteRoute c u ty = .error .invalidVoteType
        ∧ stepComment c (.body u ty) = c) := by
  obtain ⟨h1, h2⟩ := not_or.mp h
  refine ⟨fun store pid u => ?_, fun p u => ⟨?_, ?_⟩, fun c u => ⟨?_, ?_⟩⟩ <;>
    simp [postsVoteStore, postsVoteRoute, stepPost, stepComment,
      commentVoteRoute, h, h1, h2]

theorem c6_invalid_type_rejected_main_route_witness :
    postsVoteStore (fun _ => none) 10 2 badTok = .error .invalidVoteType :=
  (c6_invalid_type_rejected_main_route badTok (by decide)).1 (fun _ => none) 10 2

/-- Claim C9: voting on a comment never modifies any user's karma: all
three comment-vote handlers leave the entire karma table untouched in
every case (success, invalid type, or failed notification insert). -/
theorem c9_comment_vote_karma_frame (s : CommentAppState) (u : UserId)
    (ty : String) (now : Int) :
    (commentVoteFullBody s u ty now).1.karma = s.karma
    ∧ (votesCommentFull s u ty).1.karma = s.karma
    ∧ (commentVoteFullLegacy s u ty now).1.karma = s.karma := by
  refine ⟨?_, rfl, ?_⟩
  · unfold commentVoteFullBody
    split
    · rfl
    · split
      · split <;> rfl
      · rfl
  · unfold commentVoteFullLegacy
    split
    · split <;> rfl
    · rfl

theorem postsVoteRoute_ok_score (p : Post) (u : UserId) (ty : String)
    (r : VoteResult) (hr : postsVoteRoute p u ty = .ok r) :
    r.post.votes = (r.post.upvotes.length : Int) - r.post.downvotes.length := by
  unfold postsVoteRoute postsVoteAfterFind at hr
  split at hr
  · split at hr
    · exact absurd hr (by simp)
    · cases hr
      rfl
  · exact absurd hr (by simp)

theorem commentVoteRoute_ok_score (c : Comment) (u : UserId) (ty : String)
    (r : Comment × Bool) (hr : commentVoteRoute c u ty = .ok r) :
    r.1.voteCount = (r.1.upvotes.length : Int) - r.1.downvotes.length := by
  unfold commentVoteRoute at hr
  split at hr
  · cases hr
    rfl
  · split at hr
    · cases hr
      rfl
    · exact absurd hr (by simp)

theorem stepPost_score (p : Post) (op : PostOp)
    (h : p.votes = (p.upvotes.length : Int) - p.downvotes.length) :
    (stepPost p op).votes =
      ((stepPost p op).upvotes.length : Int) - (stepPost p op).downvotes.length := by
  cases op with
  | main u ty =>
    rcases hr : postsVoteRoute p u ty with e | r
    · simpa [stepPost, hr] using h
    · simpa [stepPost, hr] using postsVoteRoute_ok_score p u ty r hr
  | alt u ty => rfl

theorem stepComment_score (c : Comment) (op : CommentOp)
    (h : c.voteCount = (c.upvotes.length : Int) - c.downvotes.length) :
    (stepComment c op).voteCount =
      ((stepComment c op).upvotes.length : Int) - (stepComment c op).downvotes.length := by
  cases op with
  | body u ty =>
    rcases hr : commentVoteRoute c u ty with e | r
    · simpa [stepComment, hr] using h
    · simpa [stepComment, hr] using commentVoteRoute_ok_score c u ty r hr
  | legacy u ty => rfl
  | alt u ty => rfl

theorem foldl_stepPost_score (ops : List PostOp) (p : Post)
    (h : p.votes = (p.upvotes.length : Int) - p.downvotes.length) :
    (ops.foldl stepPost p).votes =
      (((ops.foldl stepPost p).upvotes.length : Int)
        - (ops.foldl stepPost p).downvotes.length) := by
  induction ops generalizing p with
  | nil => exact h
  | cons op rest ih => exact ih (stepPost p op) (stepPost_score p op h)

theorem foldl_stepComment_score (ops : List CommentOp) (c : Comment)
    (h : c.voteCount = (c.upvotes.length : Int) - c.downvotes.length) :
    (ops.foldl stepComment c).voteCount =
      (((ops.foldl stepComment c).upvotes.length : Int)
        - (ops.foldl stepComment c).downvotes.length) := by
  induction ops generalizing c with
  | nil => exact h
  | cons op rest ih => exact ih (stepComment c op) (stepComment_score c op h)

/-- Claim C4: after any completed save the cached score equals the number
of upvoters minus the number of downvoters — for the `pre('save')` hooks,
for the saved output of every vote handler (`Post.votes` for posts,
`Comment.voteCount` for comments), and along any sequence of vote
operations starting from a consistent document, so the score never drifts
from the sets. -/
theorem c4_score_matches_sets :
    (∀ p : Post, (Post.preSave p).votes =
      ((Post.preSave p).upvotes.length : Int) - (Post.preSave p).downvotes.length)
    ∧ (∀ c : Comment, (Comment.preSave c).voteCount =
      ((Comment.preSave c).upvotes.length : Int) - (Comment.preSave c).downvotes.length)
    ∧ (∀ p : Post, ∀ u : UserId, ∀ ty : String, (votesRoutePost p u ty).votes =
      ((votesRoutePost p u ty).upvotes.length : Int) - (votesRoutePost p u ty).downvotes.length)
    ∧ (∀ p u ty r, postsVoteRoute p u ty = .ok r →
      r.post.votes = (r.post.upvotes.length : Int) - r.post.downvotes.length)
    ∧ (∀ c : Comment, ∀ u : UserId, ∀ ty : String, (votesRouteComment c u ty).voteCount =
      ((votesRouteComment c u ty).upvotes.length : Int) - (votesRouteComment c u ty).downvotes.length)
    ∧ (∀ c u ty r, commentVoteRoute c u ty = .ok r →
      r.1.voteCount = (r.1.upvotes.length : Int) - r.1.downvotes.length)
    ∧ (∀ c : Comment, ∀ u : UserId, ∀ ty : String, (commentVoteLegacy c u ty).voteCount =
      ((commentVoteLegacy c u ty).upvotes.length : Int) - (commentVoteLegacy c u ty).downvotes.length)
    ∧ (∀ (ops : List PostOp) (p : Post),
        p.votes = (p.upvotes.length : Int) - p.downvotes.length →
        (ops.foldl stepPost p).votes =
          ((ops.foldl stepPost p).upvotes.length : Int) - (ops.foldl stepPost p).downvotes.length)
    ∧ (∀ (ops : List CommentOp) (c : Comment),
        c.voteCount = (c.upvotes.length : Int) - c.downvotes.length →
        (ops.foldl stepComment c).voteCount =
          ((ops.foldl stepComment c).upvotes.length : Int)
            - (ops.foldl stepComment c).downvotes.length) :=
  ⟨fun _ => rfl, fun _ => rfl, fun _ _ _ => rfl,
   postsVoteRoute_ok_score, fun _ _ _ => rfl, commentVoteRoute_ok_score,
   fun _ _ _ => rfl, foldl_stepPost_score, foldl_stepComment_score⟩

theorem c4_score_matches_sets_witness :
    ([PostOp.main 2 upvoteTok, PostOp.alt 3 downvoteTok].foldl stepPost
      freshPost).votes =
    ((([PostOp.main 2 upvoteTok, PostOp.alt 3 downvoteTok].foldl stepPost
      freshPost).upvotes.length : Int)
      - ([PostOp.main 2 upvoteTok, PostOp.alt 3 downvoteTok].foldl stepPost
        freshPost).downvotes.length) :=
  (c4_score_matches_sets).2.2.2.2.2.2.2.1
    [PostOp.main 2 upvoteTok, PostOp.alt 3 downvoteTok] freshPost (by decide)

theorem dayMs_pos : (0 : Int) < dayMs := by decide

theorem window_le_one_of_pairwise (store : List Notif)
    (hsep : store.Pairwise
      (fun a b => a.key = b.key → a.createdAt + dayMs ≤ b.createdAt))
    (k : NotifKey) (t : Int) : windowCount store k t ≤ 1 := by
  unfold windowCount
  rcases hf : store.filter
      (fun n => decide (n.key = k ∧ t < n.createdAt ∧ n.createdAt ≤ t + dayMs)) with
    _ | ⟨a, tl⟩
  · rw [hf]
    simp
  · rcases tl with _ | ⟨b, tl2⟩
    · rw [hf]
      simp
    · exfalso
      have hpf : (a :: b :: tl2).Pairwise
          (fun a b => a.key = b.key → a.createdAt + dayMs ≤ b.createdAt) := by
        rw [← hf]
        exact hsep.sublist (List.filter_sublist _)
      have hab := (List.pairwise_cons.mp hpf).1 b (List.mem_cons_self _ _)
      have ha : a ∈ store.filter
          (fun n => decide (n.key = k ∧ t < n.createdAt ∧ n.createdAt ≤ t + dayMs)) := by
        rw [hf]; exact List.mem_cons_self _ _
      have hb : b ∈ store.filter
          (fun n => decide (n.key = k ∧ t < n.createdAt ∧ n.createdAt ≤ t + dayMs)) := by
        rw [hf]; exact List.mem_cons_of_mem _ (List.mem_cons_self _ _)
      have ha2 := of_decide_eq_true ((List.mem_filter.mp ha).2)
      have hb2 := of_decide_eq_true ((List.mem_filter.mp hb).2)
      have hkey : a.key = b.key := ha2.1.trans hb2.1.symm
      have := hab hkey
      omega

theorem createNotifDedup_pairwise (store : List Notif) (k : NotifKey) (now : Int)
    (hsep : store.Pairwise
      (fun a b => a.key = b.key → a.createdAt + dayMs ≤ b.createdAt)) :
    (createNotifDedup store k now).Pairwise
      (fun a b => a.key = b.key → a.createdAt + dayMs ≤ b.createdAt) := by
  unfold createNotifDedup
  split
  · exact hsep
  · next hnone =>
    rw [List.pairwise_append]
    refine ⟨hsep, List.pairwise_singleton _ _, ?_⟩
    intro a ha n hn hkey
    have hno : ¬(a.key = k ∧ a.createdAt > now - dayMs) := by
      intro hcon
      exact hnone (List.any_eq_true.mpr ⟨a, ha, decide_eq_true hcon⟩)
    rw [List.mem_singleton.mp hn] at hkey
    have hlt : ¬(a.createdAt > now - dayMs) := fun hgt => hno ⟨hkey, hgt⟩
    rw [List.mem_singleton.mp hn]
    show a.createdAt + dayMs ≤ now
    omega

theorem foldDedup_pairwise (reqs : List (NotifKey × Int)) (store : List Notif)
    (hsep : store.Pairwise
      (fun a b => a.key = b.key → a.createdAt + dayMs ≤ b.createdAt)) :
    (reqs.foldl (fun st r => createNotifDedup st r.1 r.2) store).Pairwise
      (fun a b => a.key = b.key → a.createdAt + dayMs ≤ b.createdAt) := by
  induction reqs generalizing store with
  | nil => exact hsep
  | cons req rest ih =>
    exact ih (createNotifDedup store req.1 req.2)
      (createNotifDedup_pairwise store req.1 req.2 hsep)

/-- Claim C7: notification de-duplication.  First conjunct: running any
sequence of `createNotification` requests through the
`utils/notificationUtils.js` 24h read-then-write check leaves at most one
notification per `(recipient, kind, actor, content)` tuple in every rolling
24-hour window.  Remaining conjuncts: the concrete vote → toggle-off →
vote-again sequence by the same actor on the same post within 24h, through
the `routes/posts.js` handler with the `part_004` unique index, produces
exactly one notification record for the recipient. -/
theorem c7_notification_window_dedup :
    (∀ (reqs : List (NotifKey × Int)) (k : NotifKey) (t : Int),
      windowCount (runDedup reqs) k t ≤ 1)
    ∧ upOnce.notifs = [⟨⟨1, upvoteTok, 2, some 10, none⟩, 100⟩]
    ∧ upSeq2.notifs = [⟨⟨1, upvoteTok, 2, some 10, none⟩, 100⟩]
    ∧ upSeq3run.1.notifs = [⟨⟨1, upvoteTok, 2, some 10, none⟩, 100⟩] := by
  refine ⟨fun reqs k t => ?_, by decide, by decide, by decide⟩
  unfold runDedup
  exact window_le_one_of_pairwise _
    (foldDedup_pairwise reqs [] List.Pairwise.nil) k t

/-- Claim C8 (amended): after the content write has committed, a failing
notification write is swallowed only on the
`controllers/voteController.js` path (`createVoteNotification` wraps the
insert in its own try/catch and never reports failure).  On the
`routes/posts.js` route the awaited side effects sit inside the route's
single try block: when the notification insert fails (here: the
duplicate-key rejection of the unique index), the caller receives the
failure response even though the vote transition is committed (the saved
post is returned in the state) and the notification collection is
unchanged. -/
theorem c8_side_effect_failure_handling (s : AppState) (u : UserId)
    (ty : String) (now : Int) (store : List Notif) (k : NotifKey) (t : Int)
    (sinkFails : Bool)
    (hty : ty = upvoteTok ∨ ty = downvoteTok)
    (hself : ¬s.post.author = u)
    (hnotif : postsVoteNotify (s.post.upvotes.contains u)
      (s.post.downvotes.contains u) ty = true)
    (hdup : s.notifs.any (fun n =>
      decide (n.key = NotifKey.mk s.post.author ty u (some s.post.id) none)) = true) :
    (createVoteNotificationSafe store k t sinkFails).2 = true
    ∧ (postsVoteHandler s u ty now).2 = false
    ∧ (postsVoteHandler s u ty now).1.post = (postsVoteCore s.post u ty).preSave
    ∧ (postsVoteHandler s u ty now).1.notifs = s.notifs := by
  refine ⟨?_, ?_, ?_, ?_⟩
  · unfold createVoteNotificationSafe
    split
    · rfl
    · split <;> rfl
  all_goals
    unfold postsVoteHandler createNotifUnique
    simp at hnotif
    simp [hty, hself, hnotif, hdup]

theorem c8_side_effect_failure_handling_witness :
    (postsVoteHandler upSeq2 2 upvoteTok 300).2 = false
    ∧ (postsVoteHandler upSeq2 2 upvoteTok 300).1.notifs = upSeq2.notifs :=
  ⟨(c8_side_effect_failure_handling upSeq2 2 upvoteTok 300 []
      ⟨1, upvoteTok, 2, some 10, none⟩ 0 false (Or.inl rfl) (by decide)
      (by decide) (by decide)).2.1,
   (c8_side_effect_failure_handling upSeq2 2 upvoteTok 300 []
      ⟨1, upvoteTok, 2, some 10, none⟩ 0 false (Or.inl rfl) (by decide)
      (by decide) (by decide)).2.2.2⟩

end Whitepage
